import Mathlib

/-!
Verification of the Epilyzer brightness-control core.

Shallow embedding: Rust f64 values are modelled as real numbers, Instant
timestamps as real seconds passed explicitly (every function that reads
the clock takes a `now` argument), and Duration values as real seconds.
State mutation becomes explicit state passing: a Rust method that mutates
`self` and returns a value becomes a Lean function returning the new
state (paired with the return value where there is one).
-/

namespace Epilyzer

open Real
open Classical

/-- Rust `f64::clamp(lo, hi)` (src/core/src/epilepsy.rs uses it via
`val.clamp(5.0, 100.0)` and `diff.clamp(-max_change, max_change)`). -/
noncomputable def fclamp (x lo hi : ℝ) : ℝ := max lo (min x hi)

/-- src/core/src/epilepsy.rs line 8. -/
def MAX_DELTA_PER_STEP : ℝ := 2

/-- src/core/src/epilepsy.rs lines 11-15 (`SafetyMode`). -/
inductive SafetyMode where
  | Automatic
  | EmergencyStop
deriving DecidableEq

/-- src/core/src/epilepsy.rs lines 17-24 (`TransitionState`); `start_time`
and `duration` are real seconds. -/
structure TransitionState where
  current_brightness : ℝ
  target_brightness : ℝ
  start_time : ℝ
  duration : ℝ
  initial_brightness : ℝ

/-- src/core/src/epilepsy.rs lines 26-34 (`EpilepsyGuard`). -/
structure EpilepsyGuard where
  mode : SafetyMode
  last_change_time : ℝ
  current_brightness : ℝ
  transition : Option TransitionState
  last_user_override : Option ℝ
  is_locked : Bool
  transition_duration_ms : ℕ

namespace EpilepsyGuard

/-- src/core/src/epilepsy.rs lines 59-64. -/
def get_safety_cap (g : EpilepsyGuard) : ℝ :=
  match g.mode with
  | SafetyMode.EmergencyStop => 0
  | _ => 100

/-- src/core/src/epilepsy.rs lines 66-72; `duration` and `now` in seconds. -/
def is_in_grace_period (g : EpilepsyGuard) (duration now : ℝ) : Prop :=
  match g.last_user_override with
  | some last => now - last < duration
  | none => False

/-- src/core/src/epilepsy.rs lines 82-84 (`clamp_safe`). -/
noncomputable def clamp_safe (val : ℝ) : ℝ := fclamp val 5 100

/-- src/core/src/epilepsy.rs lines 86-109 (`calculate_next_step`); returns
the updated guard and the returned brightness. -/
noncomputable def calculate_next_step (g : EpilepsyGuard) (target now : ℝ) :
    EpilepsyGuard × ℝ :=
  if g.mode = SafetyMode.EmergencyStop then (g, g.current_brightness)
  else
    let cap := g.get_safety_cap
    let tgt := clamp_safe (min target cap)
    if |g.current_brightness - tgt| < 0.1 then (g, g.current_brightness)
    else
      let max_change := MAX_DELTA_PER_STEP
      let diff := tgt - g.current_brightness
      let step := fclamp diff (-max_change) max_change
      let new_brightness := clamp_safe (g.current_brightness + step)
      ({ g with current_brightness := new_brightness, last_change_time := now },
       new_brightness)

/-- src/core/src/epilepsy.rs lines 120-125: the debounce check `if let
Some(ref trans) = self.transition { if (trans.target_brightness - target).abs()
< 0.1 { return } }`. -/
def sameTargetInFlight (t : Option TransitionState) (tgt : ℝ) : Prop :=
  match t with
  | some tr => |tr.target_brightness - tgt| < 0.1
  | none => False

/-- src/core/src/epilepsy.rs lines 111-143 (`request_transition`); the stored
`duration` is `transition_duration_ms` converted to seconds. -/
noncomputable def request_transition (g : EpilepsyGuard) (target now : ℝ) :
    EpilepsyGuard :=
  if g.mode = SafetyMode.EmergencyStop then g
  else
    let tgt := min target g.get_safety_cap
    if sameTargetInFlight g.transition tgt then g
    else if |tgt - g.current_brightness| < 0.1 then g
    else
      let tr0 : TransitionState :=
        { current_brightness := g.current_brightness,
          target_brightness := tgt,
          start_time := now,
          duration := (g.transition_duration_ms : ℝ) / 1000,
          initial_brightness := g.current_brightness }
      { g with transition := some tr0 }

/-- src/core/src/epilepsy.rs lines 145-171 (`force_instant_transition`):
identical to `request_transition` except that there is no EmergencyStop
early return and the duration is fixed at 200 ms. -/
noncomputable def force_instant_transition (g : EpilepsyGuard) (target now : ℝ) :
    EpilepsyGuard :=
  let tgt := min target g.get_safety_cap
  if sameTargetInFlight g.transition tgt then g
  else if |tgt - g.current_brightness| < 0.1 then g
  else
    let tr0 : TransitionState :=
      { current_brightness := g.current_brightness,
        target_brightness := tgt,
        start_time := now,
        duration := (200 : ℝ) / 1000,
        initial_brightness := g.current_brightness }
    { g with transition := some tr0 }

/-- src/core/src/epilepsy.rs lines 202-204 (`ease_in_out`). -/
noncomputable def ease_in_out (t : ℝ) : ℝ := -(Real.cos (Real.pi * t) - 1) / 2

/-- src/core/src/epilepsy.rs lines 173-200 (`tick_transition`); returns the
updated guard and the optional brightness that the daemon then writes to
the hardware capability. -/
noncomputable def tick_transition (g : EpilepsyGuard) (now : ℝ) :
    EpilepsyGuard × Option ℝ :=
  if g.mode = SafetyMode.EmergencyStop then ({ g with transition := none }, none)
  else
    match g.transition with
    | some tr =>
      let elapsed := now - tr.start_time
      let total_dur := tr.duration
      if elapsed ≥ total_dur then
        ({ g with current_brightness := tr.target_brightness, transition := none },
         some tr.target_brightness)
      else
        let t := elapsed / total_dur
        let eased_t := ease_in_out t
        let new_val := tr.initial_brightness +
          (tr.target_brightness - tr.initial_brightness) * eased_t
        ({ g with current_brightness := new_val, last_change_time := now },
         some new_val)
    | none => (g, none)

end EpilepsyGuard

/-- src/daemon/src/main.rs lines 251-285: the per-fast-tick content
multiplier update. `current_luma` is the latest shared luminance sample
(none while no sample has arrived), `is_fb_enabled` the flashbang
protection flag; returns the new `content_multiplier`. -/
noncomputable def updateContentMultiplier (is_fb_enabled : Bool) (current_luma : Option ℝ)
    (content_multiplier : ℝ) : ℝ :=
  match current_luma with
  | some luma =>
    if is_fb_enabled = true then
      if luma > 0.5 then
        let excess := (luma - 0.5) / 0.5
        let target_mult := 1 - excess * 0.95
        if target_mult < content_multiplier then target_mult
        else min (content_multiplier + 0.05) target_mult
      else min (content_multiplier + 0.05) 1
    else 1
  | none => content_multiplier

/-- The transition decision taken by one policy evaluation of the daemon
main loop. -/
inductive PolicyAction where
  | forceInstant (target : ℝ)
  | request (target : ℝ)
  | noAction

/-- src/daemon/src/main.rs lines 300-305: sequential composition of the
fused brightness target (`target *= factor` for each applicable factor). -/
noncomputable def fuseTarget (circadian w_factor content_multiplier : ℝ)
    (on_battery : Bool) : ℝ :=
  let t1 := circadian
  let t2 := if w_factor < 0.99 then t1 * w_factor else t1
  let t3 := if content_multiplier < 0.99 then t2 * content_multiplier else t2
  if on_battery = true then t3 * 0.8 else t3

/-- src/daemon/src/main.rs lines 307-326: the urgency tie-break applied to
the fused target. `slow_tick` models `tick_count % 75000 == 0` (the
roughly ten-minute counter). -/
noncomputable def transitionDecision (current target content_multiplier : ℝ)
    (slow_tick : Bool) : PolicyAction :=
  let diff := |current - target|
  if target < current - 1 ∧ content_multiplier < 0.99 then
    PolicyAction.forceInstant target
  else if diff > 5 then PolicyAction.request target
  else if diff > 1 ∧ slow_tick = true then PolicyAction.request target
  else PolicyAction.noAction

/-- src/daemon/src/main.rs lines 290-336: one whole policy evaluation
(the `tick_count % 125 == 0` body): skipped while locked, while the mode
is not Automatic, or during the 1800-second grace period; otherwise fuses
the signals and picks the transition. -/
noncomputable def policyEvaluation (g : EpilepsyGuard) (now : ℝ)
    (circadian w_factor content_multiplier : ℝ) (on_battery slow_tick : Bool) :
    PolicyAction :=
  if g.is_locked = false ∧ g.mode = SafetyMode.Automatic then
    if ¬ g.is_in_grace_period 1800 now then
      transitionDecision g.current_brightness
        (fuseTarget circadian w_factor content_multiplier on_battery)
        content_multiplier slow_tick
    else PolicyAction.noAction
  else PolicyAction.noAction

/-- Written from C6's words, for comparison with `fuseTarget`: the fused
target equals the circadian target multiplied by the weather factor if it
is below 0.99, by the content multiplier if it is below 0.99, and by 0.8
if on battery. -/
noncomputable def fuseTargetSpec (circadian w_factor content_multiplier : ℝ)
    (on_battery : Bool) : ℝ :=
  circadian * (if w_factor < 0.99 then w_factor else 1)
    * (if content_multiplier < 0.99 then content_multiplier else 1)
    * (if on_battery = true then 0.8 else 1)

/-- Written from C6's words, for comparison with `policyEvaluation`: skip
when locked, not Automatic, or in the grace period; otherwise, in priority
order: force an instant transition when the fused target is meaningfully
below current brightness and the content multiplier is actively
suppressing; else request a transition when the gap exceeds 5; else
request one when the gap exceeds 1 and the ten-minute counter elapses;
otherwise do nothing. -/
noncomputable def policyEvaluationSpec (g : EpilepsyGuard) (now : ℝ)
    (circadian w_factor content_multiplier : ℝ) (on_battery slow_tick : Bool) :
    PolicyAction :=
  if g.is_locked = true ∨ g.mode ≠ SafetyMode.Automatic ∨
      g.is_in_grace_period 1800 now then
    PolicyAction.noAction
  else
    let target := fuseTargetSpec circadian w_factor content_multiplier on_battery
    if target < g.current_brightness - 1 ∧ content_multiplier < 0.99 then
      PolicyAction.forceInstant target
    else if |g.current_brightness - target| > 5 then PolicyAction.request target
    else if |g.current_brightness - target| > 1 ∧ slow_tick = true then
      PolicyAction.request target
    else PolicyAction.noAction

/-- The fields of a chrono::DateTime in UTC that
src/core/src/context.rs reads: day of year (`ordinal`), hour, minute,
second. -/
structure UtcDateTime where
  ordinal : ℕ
  hour : ℕ
  minute : ℕ
  second : ℕ

/-- src/core/src/context.rs lines 5-9 (`ContextManager`); the
chrono::NaiveTime wake time (seconds always zero) is stored as hour and
minute. -/
structure ContextManager where
  _lat : ℝ
  lon : ℝ
  wake_hour : ℕ
  wake_minute : ℕ

/-- chrono::NaiveTime::from_hms_opt(h, m, s): some time iff the three
fields are in range. -/
def from_hms_opt (hour minute second : ℕ) : Option (ℕ × ℕ) :=
  if hour < 24 ∧ minute < 60 ∧ second < 60 then some (hour, minute) else none

namespace ContextManager

/-- src/core/src/context.rs lines 24-26 (`get_wake_time`). -/
def get_wake_time (ctx : ContextManager) : ℕ × ℕ :=
  (ctx.wake_hour, ctx.wake_minute)

/-- src/core/src/context.rs lines 28-32 (`set_wake_time`): update only when
NaiveTime::from_hms_opt accepts the pair. -/
def set_wake_time (ctx : ContextManager) (hour minute : ℕ) : ContextManager :=
  match from_hms_opt hour minute 0 with
  | some new_time => { ctx with wake_hour := new_time.1, wake_minute := new_time.2 }
  | none => ctx

/-- src/core/src/context.rs lines 36-73 (`calculate_solar_elevation`). -/
noncomputable def calculate_solar_elevation (ctx : ContextManager)
    (date : UtcDateTime) : ℝ :=
  let doy : ℝ := date.ordinal
  let hour : ℝ := (date.hour : ℝ) + (date.minute : ℝ) / 60 + (date.second : ℝ) / 3600
  let gamma := (2 * Real.pi / 365) * (doy - 1 + (hour - 12) / 24)
  let eq_time := 229.18 * (0.000075 + 0.001868 * Real.cos gamma
    - 0.032077 * Real.sin gamma
    - 0.014615 * Real.cos (2 * gamma) - 0.040849 * Real.sin (2 * gamma))
  let decl := 0.006918 - 0.399912 * Real.cos gamma + 0.070257 * Real.sin gamma
    - 0.006758 * Real.cos (2 * gamma) + 0.000907 * Real.sin (2 * gamma)
    - 0.002697 * Real.cos (3 * gamma) + 0.00148 * Real.sin (3 * gamma)
  let time_offset := eq_time + 4 * ctx.lon
  let tst := hour * 60 + time_offset
  let ha := (tst / 4) - 180
  let ha_rad := ha * (Real.pi / 180)
  let lat_rad := ctx._lat * (Real.pi / 180)
  let cos_zenith := Real.sin lat_rad * Real.sin decl
    + Real.cos lat_rad * Real.cos decl * Real.cos ha_rad
  let zenith_rad := Real.arccos cos_zenith
  90 - zenith_rad * (180 / Real.pi)

end ContextManager

/-- src/core/src/context.rs lines 93-104: the elevation-to-brightness
if-chain inside `get_circadian_target`, as a function of the elevation. -/
noncomputable def elevationToBrightness (elevation : ℝ) : ℝ :=
  if elevation > 6 then
    let day_progress := fclamp ((elevation - 6) / 40) 0 1
    50 + 50 * day_progress
  else if elevation > -6 then
    let t_progress := (6 - elevation) / 12
    50 - 20 * t_progress
  else if elevation > -12 then
    let t_progress := (-6 - elevation) / 6
    30 - 10 * t_progress
  else 20

/-- src/core/src/context.rs lines 75-109 (`get_circadian_target`): the
wake-time check (`now.hour() + 3 < wake_time.hour()`) returns the sleep
brightness 10 before the elevation mapping is consulted. -/
noncomputable def ContextManager.get_circadian_target (ctx : ContextManager)
    (now : UtcDateTime) : ℝ :=
  let elevation := ctx.calculate_solar_elevation now
  let now_local := now.hour + 3
  if now_local < ctx.wake_hour then 10
  else elevationToBrightness elevation

/-- src/daemon/src/state.rs lines 7-17 (`AppState`); `last_updated` is a
timestamp in seconds. -/
structure AppState where
  brightness : ℝ
  wake_time : Option (ℕ × ℕ)
  transition_duration_ms : ℕ
  flashbang_protection : Bool
  last_updated : ℝ

/-- src/daemon/src/state.rs lines 27-38 (`AppState::default`). -/
noncomputable def AppState.defaultState (now : ℝ) : AppState :=
  { brightness := 15, wake_time := none, transition_duration_ms := 750,
    flashbang_protection := true, last_updated := now }

/-- What `StateManager::load` can observe of the persisted-state file:
absent, unreadable, readable but not valid JSON for `AppState`, or
parsing to a concrete `AppState`. A file that serde_json wrote from an
`AppState` value parses back to that value (serde round-trip), which the
`parsed` constructor captures. -/
inductive StateFileContent where
  | missing
  | unreadable
  | unparseable
  | parsed (s : AppState)

/-- src/daemon/src/state.rs lines 52-67 (`StateManager::load`): the parsed
state when the file exists, reads and parses; every failure path falls
through to `AppState::default`. The function is total: no error escapes. -/
noncomputable def StateManager.load (file : StateFileContent) (now : ℝ) : AppState :=
  match file with
  | StateFileContent.parsed s => s
  | StateFileContent.missing => AppState.defaultState now
  | StateFileContent.unreadable => AppState.defaultState now
  | StateFileContent.unparseable => AppState.defaultState now

/-- src/daemon/src/state.rs lines 69-86 (`StateManager::save`): builds the
snapshot with a fresh timestamp, serializes it and overwrites the whole
file; the resulting file content parses back to that snapshot. -/
noncomputable def StateManager.save (brightness : ℝ) (wake_time : Option (ℕ × ℕ))
    (transition_duration_ms : ℕ) (flashbang_protection : Bool) (now : ℝ) :
    StateFileContent :=
  StateFileContent.parsed
    { brightness := brightness, wake_time := wake_time,
      transition_duration_ms := transition_duration_ms,
      flashbang_protection := flashbang_protection, last_updated := now }

/-! ## Helper lemmas about the elevation mapping -/

lemma etb_hi (e : ℝ) (h : 6 < e) :
    elevationToBrightness e = 50 + 50 * min ((e - 6) / 40) 1 := by
  unfold elevationToBrightness fclamp
  rw [if_pos h, max_eq_right (le_min (div_nonneg (by linarith) (by norm_num))
    (by norm_num))]

lemma etb_mid (e : ℝ) (h1 : -6 < e) (h2 : e ≤ 6) :
    elevationToBrightness e = 50 - 20 * ((6 - e) / 12) := by
  unfold elevationToBrightness
  rw [if_neg (not_lt.mpr h2), if_pos h1]

lemma etb_low (e : ℝ) (h1 : -12 < e) (h2 : e ≤ -6) :
    elevationToBrightness e = 30 - 10 * ((-6 - e) / 6) := by
  unfold elevationToBrightness
  rw [if_neg (not_lt.mpr (by linarith)), if_neg (not_lt.mpr h2), if_pos h1]

lemma etb_night (e : ℝ) (h : e ≤ -12) : elevationToBrightness e = 20 := by
  unfold elevationToBrightness
  rw [if_neg (not_lt.mpr (by linarith)), if_neg (not_lt.mpr (by linarith)),
    if_neg (not_lt.mpr h)]

lemma etb_ge_20 (e : ℝ) : 20 ≤ elevationToBrightness e := by
  by_cases h6 : 6 < e
  · rw [etb_hi e h6]
    have := le_min (div_nonneg (by linarith : (0:ℝ) ≤ e - 6)
      (by norm_num : (0:ℝ) ≤ 40)) (by norm_num : (0:ℝ) ≤ 1)
    linarith
  · by_cases hm6 : -6 < e
    · rw [etb_mid e hm6 (not_lt.mp h6)]
      have : (6 - e) / 12 ≤ 1 := by
        rw [div_le_one (by norm_num)]; linarith [not_lt.mp h6]
      linarith
    · by_cases hm12 : -12 < e
      · rw [etb_low e hm12 (not_lt.mp hm6)]
        have : (-6 - e) / 6 ≤ 1 := by
          rw [div_le_one (by norm_num)]; linarith
        linarith
      · rw [etb_night e (not_lt.mp hm12)]

/-! ## Theorems -/

/-- C7: for every time whose local hour (the UTC hour plus the fixed
offset 3) is before the configured wake hour, get_circadian_target
returns the sleep brightness 10; since the elevation mapping never
produces a value below 20, the wake-time check overrides the
elevation-to-brightness mapping whenever it fires. -/
theorem c7_wake_time_override (ctx : ContextManager) (now : UtcDateTime)
    (h : now.hour + 3 < ctx.wake_hour) :
    ctx.get_circadian_target now = 10 ∧
    20 ≤ elevationToBrightness (ctx.calculate_solar_elevation now) := by
  constructor
  · simp only [ContextManager.get_circadian_target]
    rw [if_pos h]
  · exact etb_ge_20 _

/-- C7 witness: at 02:00 UTC (local hour 5) with wake time 07:00 the
returned target is the sleep brightness. -/
theorem c7_wake_time_override_witness :
    ({ _lat := 41, lon := 28, wake_hour := 7, wake_minute := 0 } :
        ContextManager).get_circadian_target ⟨100, 2, 0, 0⟩ = 10 ∧
    20 ≤ elevationToBrightness
      (({ _lat := 41, lon := 28, wake_hour := 7, wake_minute := 0 } :
        ContextManager).calculate_solar_elevation ⟨100, 2, 0, 0⟩) :=
  c7_wake_time_override _ _ (by norm_num)

/-- C9: StateManager::save followed by load yields an AppState whose
brightness, wake_time, transition_duration_ms and flashbang_protection
equal the saved values, and load on a missing or unparseable state file
returns the documented defaults (brightness 15, no stored wake time,
750 ms transition duration, flashbang protection enabled) without failing
(load is a total function). -/
theorem c9_state_roundtrip (b : ℝ) (wt : Option (ℕ × ℕ)) (td : ℕ) (fb : Bool)
    (t t2 t3 : ℝ) :
    (StateManager.load (StateManager.save b wt td fb t) t2).brightness = b ∧
    (StateManager.load (StateManager.save b wt td fb t) t2).wake_time = wt ∧
    (StateManager.load (StateManager.save b wt td fb t) t2).transition_duration_ms = td ∧
    (StateManager.load (StateManager.save b wt td fb t) t2).flashbang_protection = fb ∧
    StateManager.load StateFileContent.missing t3 = AppState.defaultState t3 ∧
    StateManager.load StateFileContent.unreadable t3 = AppState.defaultState t3 ∧
    StateManager.load StateFileContent.unparseable t3 = AppState.defaultState t3 ∧
    (AppState.defaultState t3).brightness = 15 ∧
    (AppState.defaultState t3).wake_time = none ∧
    (AppState.defaultState t3).transition_duration_ms = 750 ∧
    (AppState.defaultState t3).flashbang_protection = true :=
  ⟨rfl, rfl, rfl, rfl, rfl, rfl, rfl, rfl, rfl, rfl, rfl⟩

/-- C10: set_wake_time with hour ≥ 24 or minute ≥ 60 leaves the stored
wake time unchanged (a silent no-op), and with hour < 24 and minute < 60
it sets the stored wake time to exactly (hour, minute), as later reported
by get_wake_time. -/
theorem c10_set_wake_time (ctx : ContextManager) (hour minute : ℕ) :
    (24 ≤ hour ∨ 60 ≤ minute → ctx.set_wake_time hour minute = ctx) ∧
    (hour < 24 → minute < 60 →
      (ctx.set_wake_time hour minute).get_wake_time = (hour, minute)) := by
  constructor
  · intro h
    have hcond : ¬ (hour < 24 ∧ minute < 60) := by omega
    simp [ContextManager.set_wake_time, from_hms_opt, hcond]
  · intro h1 h2
    have hcond : hour < 24 ∧ minute < 60 ∧ 0 < 60 := ⟨h1, h2, by omega⟩
    simp [ContextManager.set_wake_time, from_hms_opt, ContextManager.get_wake_time,
      hcond]

/-- C10 witness: the theorem applied at hour 25 (rejected) and at the
valid wake time 08:30. -/
theorem c10_set_wake_time_witness :
    (({ _lat := 41, lon := 28, wake_hour := 7, wake_minute := 0 } :
        ContextManager).set_wake_time 25 0 =
      { _lat := 41, lon := 28, wake_hour := 7, wake_minute := 0 }) ∧
    (({ _lat := 41, lon := 28, wake_hour := 7, wake_minute := 0 } :
        ContextManager).set_wake_time 8 30).get_wake_time = (8, 30) :=
  ⟨(c10_set_wake_time _ 25 0).1 (Or.inl (by norm_num)),
   (c10_set_wake_time _ 8 30).2 (by norm_num) (by norm_num)⟩

/-- C5: with flashbang protection enabled and a luminance sample
available, the content multiplier never exceeds 1; when luminance exceeds
0.5 and the desired value 1 - 0.95*(luminance - 0.5)/0.5 is below the
current multiplier, the multiplier becomes exactly that desired value in
the same tick; otherwise (desired at least current, or luminance at most
0.5) it recovers by 0.05 capped at desired (respectively 1); with
protection disabled it is set to 1. -/
theorem c5_content_multiplier (l m : ℝ) :
    updateContentMultiplier true (some l) m ≤ 1 ∧
    (l > 0.5 → 1 - 0.95 * ((l - 0.5) / 0.5) < m →
      updateContentMultiplier true (some l) m = 1 - 0.95 * ((l - 0.5) / 0.5)) ∧
    (l > 0.5 → m ≤ 1 - 0.95 * ((l - 0.5) / 0.5) →
      updateContentMultiplier true (some l) m =
        min (m + 0.05) (1 - 0.95 * ((l - 0.5) / 0.5))) ∧
    (l ≤ 0.5 → updateContentMultiplier true (some l) m = min (m + 0.05) 1) ∧
    updateContentMultiplier false (some l) m = 1 := by
  have hform : (1 : ℝ) - 0.95 * ((l - 0.5) / 0.5) = 1 - (l - 0.5) / 0.5 * 0.95 := by
    ring
  have henabled : updateContentMultiplier true (some l) m =
      if l > 0.5 then
        (if 1 - (l - 0.5) / 0.5 * 0.95 < m then 1 - (l - 0.5) / 0.5 * 0.95
         else min (m + 0.05) (1 - (l - 0.5) / 0.5 * 0.95))
      else min (m + 0.05) 1 := by
    simp only [updateContentMultiplier]
    rw [if_pos trivial]
  refine ⟨?_, ?_, ?_, ?_, ?_⟩
  · rw [henabled]
    split_ifs with hl2 hdrop
    · have hex : 0 ≤ (l - 0.5) / 0.5 :=
        div_nonneg (by linarith) (by norm_num)
      nlinarith
    · have hex : 0 ≤ (l - 0.5) / 0.5 :=
        div_nonneg (by linarith) (by norm_num)
      have hmin := min_le_right (m + 0.05) (1 - (l - 0.5) / 0.5 * 0.95)
      nlinarith
    · exact min_le_right _ _
  · intro hl hlt
    rw [hform] at hlt ⊢
    rw [henabled, if_pos hl, if_pos hlt]
  · intro hl hge
    rw [hform] at hge ⊢
    rw [henabled, if_pos hl, if_neg (not_lt.mpr hge)]
  · intro hl
    rw [henabled, if_neg (not_lt.mpr hl)]
  · simp only [updateContentMultiplier]
    rw [if_neg (by simp)]

/-- C5 witness: the theorem applied at luminance 0.9 with multiplier 1
(immediate drop to 0.24), at luminance 0.9 with multiplier 0.1 (recovery
capped at desired) and at luminance 0.2 (plain recovery). -/
theorem c5_content_multiplier_witness :
    updateContentMultiplier true (some 0.9) 1 = 1 - 0.95 * ((0.9 - 0.5) / 0.5) ∧
    updateContentMultiplier true (some 0.9) 0.1 =
      min (0.1 + 0.05) (1 - 0.95 * ((0.9 - 0.5) / 0.5)) ∧
    updateContentMultiplier true (some 0.2) 1 = min (1 + 0.05) 1 :=
  ⟨(c5_content_multiplier 0.9 1).2.1 (by norm_num) (by norm_num),
   (c5_content_multiplier 0.9 0.1).2.2.1 (by norm_num) (by norm_num),
   (c5_content_multiplier 0.2 1).2.2.2.1 (by norm_num)⟩

/-- C6: each policy evaluation of the daemon loop is skipped while
locked, while the mode is not Automatic, or within the 30-minute
post-override grace period; otherwise it fuses the circadian target with
the weather factor (if below 0.99), the content multiplier (if below
0.99) and the 0.8 battery factor, and picks, in priority order: a forced
instant transition when the target is meaningfully below current and the
content multiplier suppresses; a requested transition when the gap
exceeds 5; a requested transition when the gap exceeds 1 and the
ten-minute counter elapses; otherwise nothing. Stated as equality with
the policy written from the claim's words. -/
theorem c6_policy_refinement (g : EpilepsyGuard) (now circadian w_factor cm : ℝ)
    (on_battery slow_tick : Bool) :
    policyEvaluation g now circadian w_factor cm on_battery slow_tick =
      policyEvaluationSpec g now circadian w_factor cm on_battery slow_tick ∧
    fuseTarget circadian w_factor cm on_battery =
      fuseTargetSpec circadian w_factor cm on_battery := by
  have hfuse : fuseTarget circadian w_factor cm on_battery =
      fuseTargetSpec circadian w_factor cm on_battery := by
    unfold fuseTarget fuseTargetSpec
    split_ifs <;> ring
  refine ⟨?_, hfuse⟩
  unfold policyEvaluation policyEvaluationSpec
  by_cases hl : g.is_locked = true
  · rw [if_neg (by simp [hl]), if_pos (Or.inl hl)]
  · have hl2 : g.is_locked = false := by
      cases hval : g.is_locked
      · rfl
      · exact absurd hval hl
    by_cases hm : g.mode = SafetyMode.Automatic
    · by_cases hg : g.is_in_grace_period 1800 now
      · rw [if_pos ⟨hl2, hm⟩, if_neg (not_not_intro hg),
          if_pos (Or.inr (Or.inr hg))]
      · rw [if_pos ⟨hl2, hm⟩, if_pos hg,
          if_neg (by
            rintro (h | h | h)
            · exact hl h
            · exact h hm
            · exact hg h)]
        unfold transitionDecision
        rw [hfuse]
    · rw [if_neg (by rintro ⟨-, h⟩; exact hm h), if_pos (Or.inr (Or.inl hm))]

/-- C2 counterexample: in EmergencyStop with no in-flight transition,
force_instant_transition does not leave the transition state absent — it
installs a transition (toward the capped target 0), because the function
never checks the mode. -/
theorem c2_counterexample :
    (EpilepsyGuard.force_instant_transition
        ⟨SafetyMode.EmergencyStop, 0, 50, none, none, false, 750⟩ 100 0).transition ≠
      none := by
  have hmin : min (100 : ℝ) 0 = 0 := by norm_num
  simp only [EpilepsyGuard.force_instant_transition, EpilepsyGuard.get_safety_cap,
    EpilepsyGuard.sameTargetInFlight, hmin]
  rw [if_neg (by exact not_false), if_neg (by
    rw [zero_sub, abs_neg, abs_of_nonneg (by norm_num : (0:ℝ) ≤ 50)]
    norm_num)]
  simp

/-- C2 amended: under EmergencyStop, calculate_next_step returns the
current brightness and leaves the guard unchanged, request_transition
leaves the transition state absent, and neither request nor force move
the current brightness; force_instant_transition, however, does not check
the mode: it caps the target to 0 and, when the current brightness is at
least 0.1 away from 0 and the target is nonnegative, installs a 200 ms
transition toward 0. -/
theorem c2_emergency_stop (g : EpilepsyGuard) (target now : ℝ)
    (hmode : g.mode = SafetyMode.EmergencyStop) :
    g.calculate_next_step target now = (g, g.current_brightness) ∧
    (g.transition = none → (g.request_transition target now).transition = none) ∧
    (g.request_transition target now).current_brightness = g.current_brightness ∧
    (g.force_instant_transition target now).current_brightness =
      g.current_brightness ∧
    (g.transition = none → 0.1 ≤ |g.current_brightness| → 0 ≤ target →
      (g.force_instant_transition target now).transition =
        some ⟨g.current_brightness, 0, now, 200 / 1000, g.current_brightness⟩) := by
  have hcap : g.get_safety_cap = 0 := by
    unfold EpilepsyGuard.get_safety_cap
    rw [hmode]
  refine ⟨?_, ?_, ?_, ?_, ?_⟩
  · simp only [EpilepsyGuard.calculate_next_step]
    rw [if_pos hmode]
  · intro hnone
    simp only [EpilepsyGuard.request_transition]
    rw [if_pos hmode]
    exact hnone
  · simp only [EpilepsyGuard.request_transition]
    rw [if_pos hmode]
  · simp only [EpilepsyGuard.force_instant_transition]
    split_ifs <;> rfl
  · intro hnone hdist htgt
    simp only [EpilepsyGuard.force_instant_transition, hcap, hnone,
      EpilepsyGuard.sameTargetInFlight]
    rw [min_eq_right htgt]
    rw [if_neg (by exact not_false), if_neg (by
      rw [zero_sub, abs_neg]
      exact not_lt.mpr hdist)]

/-- C2 witness: the amended theorem applied to a concrete EmergencyStop
guard at brightness 50 with requested target 80. -/
theorem c2_emergency_stop_witness :
    EpilepsyGuard.calculate_next_step
        ⟨SafetyMode.EmergencyStop, 0, 50, none, none, false, 750⟩ 80 0 =
      (⟨SafetyMode.EmergencyStop, 0, 50, none, none, false, 750⟩, 50) ∧
    (EpilepsyGuard.request_transition
        ⟨SafetyMode.EmergencyStop, 0, 50, none, none, false, 750⟩ 80 0).transition =
      none ∧
    (EpilepsyGuard.force_instant_transition
        ⟨SafetyMode.EmergencyStop, 0, 50, none, none, false, 750⟩ 80 0).transition =
      some ⟨50, 0, 0, 200 / 1000, 50⟩ := by
  have h := c2_emergency_stop
    ⟨SafetyMode.EmergencyStop, 0, 50, none, none, false, 750⟩ 80 0 rfl
  exact ⟨h.1, h.2.1 rfl,
    h.2.2.2.2 rfl (by rw [abs_of_nonneg (by norm_num : (0:ℝ) ≤ 50)]; norm_num)
      (by norm_num)⟩

/-- C3 counterexample: from current brightness 0 (inside the data model's
[0,100] brightness range but below the safe floor 5), a single
calculate_next_step toward 100 returns 5, a change of 5 — more than
MAX_DELTA_PER_STEP = 2. -/
theorem c3_counterexample :
    (EpilepsyGuard.calculate_next_step
        ⟨SafetyMode.Automatic, 0, 0, none, none, false, 750⟩ 100 0).2 = 5 ∧
    ¬ |(EpilepsyGuard.calculate_next_step
          ⟨SafetyMode.Automatic, 0, 0, none, none, false, 750⟩ 100 0).2 - 0| ≤
        MAX_DELTA_PER_STEP := by
  have hval : (EpilepsyGuard.calculate_next_step
      ⟨SafetyMode.Automatic, 0, 0, none, none, false, 750⟩ 100 0).2 = 5 := by
    simp only [EpilepsyGuard.calculate_next_step, EpilepsyGuard.get_safety_cap,
      EpilepsyGuard.clamp_safe, fclamp, MAX_DELTA_PER_STEP]
    norm_num [min_def, max_def, abs_of_nonpos, abs_of_nonneg]
    simp
  refine ⟨hval, ?_⟩
  rw [hval]
  rw [abs_of_nonneg (by norm_num : (0:ℝ) ≤ 5 - 0)]
  unfold MAX_DELTA_PER_STEP
  norm_num

/-- C3 amended: whenever the current brightness already lies in the safe
band [5,100] — which holds for every brightness the step function itself
produces — a single calculate_next_step call changes both the returned
and the stored brightness by at most MAX_DELTA_PER_STEP = 2; starting
below 5 the [5,100] result clamp can move brightness by more (see the
counterexample). -/
theorem c3_step_bound (g : EpilepsyGuard) (target now : ℝ)
    (h5 : 5 ≤ g.current_brightness) (h100 : g.current_brightness ≤ 100) :
    |(g.calculate_next_step target now).2 - g.current_brightness| ≤
      MAX_DELTA_PER_STEP ∧
    |(g.calculate_next_step target now).1.current_brightness -
        g.current_brightness| ≤ MAX_DELTA_PER_STEP := by
  have habs : ∀ c d : ℝ, 5 ≤ c → c ≤ 100 → -2 ≤ d → d ≤ 2 →
      |max 5 (min (c + d) 100) - c| ≤ 2 := by
    intro c d hc5 hc100 hd1 hd2
    have hlow : c - 2 ≤ min (c + d) 100 := le_min (by linarith) (by linarith)
    have hup : max 5 (min (c + d) 100) ≤ c + 2 :=
      max_le (by linarith) (le_trans (min_le_left _ _) (by linarith))
    have hlow2 : c - 2 ≤ max 5 (min (c + d) 100) :=
      le_trans hlow (le_max_right _ _)
    rw [abs_le]
    constructor <;> linarith
  have hmain : ∀ r : EpilepsyGuard × ℝ, r = g.calculate_next_step target now →
      |r.2 - g.current_brightness| ≤ MAX_DELTA_PER_STEP ∧
      r.1.current_brightness = r.2 := by
    intro r hr
    simp only [EpilepsyGuard.calculate_next_step] at hr
    split_ifs at hr
    · rw [hr]
      refine ⟨?_, rfl⟩
      simp only [sub_self, abs_zero]
      unfold MAX_DELTA_PER_STEP
      norm_num
    · rw [hr]
      refine ⟨?_, rfl⟩
      simp only [sub_self, abs_zero]
      unfold MAX_DELTA_PER_STEP
      norm_num
    · rw [hr]
      refine ⟨?_, rfl⟩
      show |EpilepsyGuard.clamp_safe (g.current_brightness +
        fclamp (EpilepsyGuard.clamp_safe (min target g.get_safety_cap) -
          g.current_brightness) (-MAX_DELTA_PER_STEP) MAX_DELTA_PER_STEP) -
        g.current_brightness| ≤ MAX_DELTA_PER_STEP
      unfold EpilepsyGuard.clamp_safe fclamp MAX_DELTA_PER_STEP
      exact habs _ _ h5 h100 (le_max_left _ _)
        (max_le (by norm_num) (min_le_right _ _))
  have h := hmain (g.calculate_next_step target now) rfl
  exact ⟨h.1, by rw [h.2]; exact h.1⟩

/-- C3 witness: the amended theorem applied to a concrete guard at
brightness 50 stepping toward 100. -/
theorem c3_step_bound_witness :
    |(EpilepsyGuard.calculate_next_step
        ⟨SafetyMode.Automatic, 0, 50, none, none, false, 750⟩ 100 0).2 - 50| ≤
      MAX_DELTA_PER_STEP ∧
    |(EpilepsyGuard.calculate_next_step
        ⟨SafetyMode.Automatic, 0, 50, none, none, false, 750⟩ 100 0).1.current_brightness -
        50| ≤ MAX_DELTA_PER_STEP :=
  c3_step_bound ⟨SafetyMode.Automatic, 0, 50, none, none, false, 750⟩ 100 0
    (by norm_num) (by norm_num)

lemma min1_sub {a b : ℝ} (h : a ≤ b) : min b 1 - min a 1 ≤ b - a := by
  rcases le_total b 1 with hb | hb
  · rw [min_eq_left hb, min_eq_left (le_trans h hb)]
  · rw [min_eq_right hb]
    rcases le_total a 1 with ha | ha
    · rw [min_eq_left ha]; linarith
    · rw [min_eq_right ha]; linarith

lemma etb_mono_lip (x y : ℝ) (hxy : x ≤ y) :
    elevationToBrightness x ≤ elevationToBrightness y ∧
    elevationToBrightness y - elevationToBrightness x ≤ 2 * (y - x) := by
  by_cases hy6 : 6 < y
  · have hymin_le : min ((y - 6) / 40) 1 ≤ (y - 6) / 40 := min_le_left _ _
    have hymin_nn : 0 ≤ min ((y - 6) / 40) 1 :=
      le_min (div_nonneg (by linarith) (by norm_num)) (by norm_num)
    rw [etb_hi y hy6]
    by_cases hx6 : 6 < x
    · rw [etb_hi x hx6]
      have hdd : (x - 6) / 40 ≤ (y - 6) / 40 :=
        (div_le_div_iff_of_pos_right (by norm_num : (0:ℝ) < 40)).mpr (by linarith)
      have h1 : min ((x - 6) / 40) 1 ≤ min ((y - 6) / 40) 1 :=
        min_le_min hdd le_rfl
      have h2 := min1_sub hdd
      constructor <;> linarith
    · have hx6' := not_lt.mp hx6
      by_cases hx66 : -6 < x
      · rw [etb_mid x hx66 hx6']
        have h0 : 0 ≤ (6 - x) / 12 := div_nonneg (by linarith) (by norm_num)
        constructor <;> linarith
      · have hx66' := not_lt.mp hx66
        by_cases hx12 : -12 < x
        · rw [etb_low x hx12 hx66']
          have h0 : 0 ≤ (-6 - x) / 6 := div_nonneg (by linarith) (by norm_num)
          have h1 : (-6 - x) / 6 ≤ 1 := by
            rw [div_le_one (by norm_num : (0:ℝ) < 6)]; linarith
          constructor <;> linarith
        · rw [etb_night x (not_lt.mp hx12)]
          have hx12' := not_lt.mp hx12
          constructor <;> linarith
  · have hy6' := not_lt.mp hy6
    by_cases hy66 : -6 < y
    · rw [etb_mid y hy66 hy6']
      have hy0 : 0 ≤ (6 - y) / 12 := div_nonneg (by linarith) (by norm_num)
      have hy1 : (6 - y) / 12 ≤ 1 := by
        rw [div_le_one (by norm_num : (0:ℝ) < 12)]; linarith
      by_cases hx66 : -6 < x
      · rw [etb_mid x hx66 (le_trans hxy hy6')]
        constructor <;> linarith
      · have hx66' := not_lt.mp hx66
        by_cases hx12 : -12 < x
        · rw [etb_low x hx12 hx66']
          have h0 : 0 ≤ (-6 - x) / 6 := div_nonneg (by linarith) (by norm_num)
          constructor <;> linarith
        · rw [etb_night x (not_lt.mp hx12)]
          have hx12' := not_lt.mp hx12
          constructor <;> linarith
    · have hy66' := not_lt.mp hy66
      by_cases hy12 : -12 < y
      · rw [etb_low y hy12 hy66']
        have hy0 : 0 ≤ (-6 - y) / 6 := div_nonneg (by linarith) (by norm_num)
        have hy1 : (-6 - y) / 6 ≤ 1 := by
          rw [div_le_one (by norm_num : (0:ℝ) < 6)]; linarith
        by_cases hx12 : -12 < x
        · rw [etb_low x hx12 (by linarith : x ≤ -6)]
          constructor <;> linarith
        · rw [etb_night x (not_lt.mp hx12)]
          have hx12' := not_lt.mp hx12
          constructor <;> linarith
      · have hy12' := not_lt.mp hy12
        rw [etb_night y hy12', etb_night x (by linarith : x ≤ -12)]
        constructor <;> linarith

lemma etb_two_point (x y : ℝ) :
    |elevationToBrightness x - elevationToBrightness y| ≤ 2 * |x - y| := by
  rcases le_total x y with h | h
  · have h1 := (etb_mono_lip x y h).1
    have h2 := (etb_mono_lip x y h).2
    rw [abs_of_nonpos (by linarith : elevationToBrightness x -
        elevationToBrightness y ≤ 0),
      abs_of_nonpos (by linarith : x - y ≤ 0)]
    linarith
  · have h1 := (etb_mono_lip y x h).1
    have h2 := (etb_mono_lip y x h).2
    rw [abs_of_nonneg (by linarith : 0 ≤ elevationToBrightness x -
        elevationToBrightness y),
      abs_of_nonneg (by linarith : 0 ≤ x - y)]
    linarith

lemma etb_lipschitz : LipschitzWith 2 elevationToBrightness := by
  apply LipschitzWith.of_dist_le_mul
  intro x y
  rw [Real.dist_eq, Real.dist_eq]
  exact_mod_cast etb_two_point x y

lemma ease_in_out_mem (t : ℝ) :
    0 ≤ EpilepsyGuard.ease_in_out t ∧ EpilepsyGuard.ease_in_out t ≤ 1 := by
  unfold EpilepsyGuard.ease_in_out
  have h1 := Real.neg_one_le_cos (Real.pi * t)
  have h2 := Real.cos_le_one (Real.pi * t)
  constructor <;> linarith

lemma interp_bounds (i t e : ℝ) (hi5 : 5 ≤ i) (hi100 : i ≤ 100) (ht5 : 5 ≤ t)
    (ht100 : t ≤ 100) (he0 : 0 ≤ e) (he1 : e ≤ 1) :
    5 ≤ i + (t - i) * e ∧ i + (t - i) * e ≤ 100 := by
  constructor
  · nlinarith [mul_nonneg (by linarith : (0:ℝ) ≤ i - 5) (by linarith : (0:ℝ) ≤ 1 - e),
      mul_nonneg (by linarith : (0:ℝ) ≤ t - 5) he0]
  · nlinarith [mul_nonneg (by linarith : (0:ℝ) ≤ 100 - i) (by linarith : (0:ℝ) ≤ 1 - e),
      mul_nonneg (by linarith : (0:ℝ) ≤ 100 - t) he0]

lemma tick_value_between (g1 : EpilepsyGuard) (tr : TransitionState) (now2 v : ℝ)
    (hmode1 : g1.mode = SafetyMode.Automatic)
    (htr1 : g1.transition = some tr)
    (hi5 : 5 ≤ tr.initial_brightness) (hi100 : tr.initial_brightness ≤ 100)
    (ht5 : 5 ≤ tr.target_brightness) (ht100 : tr.target_brightness ≤ 100)
    (hv : (g1.tick_transition now2).2 = some v) : 5 ≤ v ∧ v ≤ 100 := by
  have hmne : g1.mode = SafetyMode.EmergencyStop → False := by
    rw [hmode1]; intro h; exact SafetyMode.noConfusion h
  simp only [EpilepsyGuard.tick_transition, htr1] at hv
  rw [if_neg hmne] at hv
  split_ifs at hv with hel
  · have hx : some tr.target_brightness = some v := hv
    rw [← Option.some.inj hx]
    exact ⟨ht5, ht100⟩
  · have hx : some (tr.initial_brightness +
        (tr.target_brightness - tr.initial_brightness) *
          EpilepsyGuard.ease_in_out ((now2 - tr.start_time) / tr.duration)) =
        some v := hv
    rw [← Option.some.inj hx]
    exact interp_bounds _ _ _ hi5 hi100 ht5 ht100
      (ease_in_out_mem _).1 (ease_in_out_mem _).2

/-- C1 counterexample: in Automatic mode a transition target below 5 is
not clamped up to 5: from brightness 50, force_instant_transition(0.5)
followed by a tick past the 200 ms duration returns 0.5, which the daemon
writes to the hardware — a value outside [5,100] that is not the
EmergencyStop 0. -/
theorem c1_counterexample :
    ((EpilepsyGuard.force_instant_transition
        ⟨SafetyMode.Automatic, 0, 50, none, none, false, 750⟩ (1/2)
          0).tick_transition 1).2 = some (1/2) ∧
    ¬ (5 ≤ (1/2 : ℝ)) ∧ (1/2 : ℝ) ≠ 0 := by
  refine ⟨?_, by norm_num, by norm_num⟩
  have hforce : EpilepsyGuard.force_instant_transition
      ⟨SafetyMode.Automatic, 0, 50, none, none, false, 750⟩ (1/2) 0 =
      ⟨SafetyMode.Automatic, 0, 50, some ⟨50, 1/2, 0, 200/1000, 50⟩, none, false,
        750⟩ := by
    simp only [EpilepsyGuard.force_instant_transition, EpilepsyGuard.get_safety_cap,
      EpilepsyGuard.sameTargetInFlight]
    rw [min_eq_left (by norm_num : (1/2 : ℝ) ≤ 100)]
    rw [if_neg not_false, if_neg (by
      rw [abs_of_nonpos (by norm_num : (1/2 : ℝ) - 50 ≤ 0)]
      norm_num)]
  rw [hforce]
  simp only [EpilepsyGuard.tick_transition]
  rw [if_neg (by simp)]
  rw [if_pos (by norm_num : (1 : ℝ) - 0 ≥ 200/1000)]

/-- C1 amended: when a transition is started by request_transition or
force_instant_transition in Automatic mode from a current brightness in
[5,100] toward a requested target in [5,100], every value later returned
by tick_transition — and hence written via set_brightness — stays within
[5,100] (the easing factor stays in [0,1], so every intermediate value
lies between the two endpoints). This holds whatever transition was in
flight before the call — an in-flight transition is simply replaced by
the freshly started one. Formally: each call either returns the guard
unchanged (the debounce and dead-band cases, in which no transition is
started) or every value a later tick returns lies in [5,100]. The code
does not clamp transition targets up to 5, so a target below 5 produces
writes below 5 (see the counterexample). -/
theorem c1_transition_write_bounds (g : EpilepsyGuard) (target now : ℝ)
    (hmode : g.mode = SafetyMode.Automatic)
    (hc5 : 5 ≤ g.current_brightness) (hc100 : g.current_brightness ≤ 100)
    (ht5 : 5 ≤ target) (ht100 : target ≤ 100) :
    (g.request_transition target now = g ∨
      ∀ now2 v, ((g.request_transition target now).tick_transition now2).2 =
        some v → 5 ≤ v ∧ v ≤ 100) ∧
    (g.force_instant_transition target now = g ∨
      ∀ now2 v, ((g.force_instant_transition target now).tick_transition now2).2 =
        some v → 5 ≤ v ∧ v ≤ 100) := by
  have hmne : g.mode = SafetyMode.EmergencyStop → False := by
    rw [hmode]; intro h; exact SafetyMode.noConfusion h
  have hcap : g.get_safety_cap = 100 := by
    unfold EpilepsyGuard.get_safety_cap
    rw [hmode]
  constructor
  · have hreq : g.request_transition target now = g ∨
        g.request_transition target now = { g with transition := some (TransitionState.mk g.current_brightness target now ((g.transition_duration_ms : ℝ) / 1000) g.current_brightness) } := by
      simp only [EpilepsyGuard.request_transition, hcap]
      rw [min_eq_left ht100, if_neg hmne]
      split_ifs
      · exact Or.inl rfl
      · exact Or.inl rfl
      · exact Or.inr rfl
    rcases hreq with hreq | hreq
    · exact Or.inl hreq
    · refine Or.inr fun now2 v hv => ?_
      rw [hreq] at hv
      exact tick_value_between { g with transition := some (TransitionState.mk g.current_brightness target now ((g.transition_duration_ms : ℝ) / 1000) g.current_brightness) }
        (TransitionState.mk g.current_brightness target now
          ((g.transition_duration_ms : ℝ) / 1000) g.current_brightness) now2 v
        hmode rfl hc5 hc100 ht5 ht100 hv
  · have hforce : g.force_instant_transition target now = g ∨
        g.force_instant_transition target now = { g with transition := some (TransitionState.mk g.current_brightness target now (200 / 1000) g.current_brightness) } := by
      simp only [EpilepsyGuard.force_instant_transition, hcap]
      rw [min_eq_left ht100]
      split_ifs
      · exact Or.inl rfl
      · exact Or.inl rfl
      · exact Or.inr rfl
    rcases hforce with hforce | hforce
    · exact Or.inl hforce
    · refine Or.inr fun now2 v hv => ?_
      rw [hforce] at hv
      exact tick_value_between { g with transition := some (TransitionState.mk g.current_brightness target now (200 / 1000) g.current_brightness) }
        (TransitionState.mk g.current_brightness target now (200 / 1000)
          g.current_brightness) now2 v hmode rfl hc5 hc100 ht5 ht100 hv

/-- C1 witness: the amended theorem applied to a request from 50 toward
80; the request does start a transition, and the tick past the duration
returns 80, inside [5,100]. -/
theorem c1_transition_write_bounds_witness : 5 ≤ (80 : ℝ) ∧ (80 : ℝ) ≤ 100 := by
  have hreq : EpilepsyGuard.request_transition
      ⟨SafetyMode.Automatic, 0, 50, none, none, false, 750⟩ 80 0 =
      ⟨SafetyMode.Automatic, 0, 50, some ⟨50, 80, 0, (750 : ℕ) / 1000, 50⟩,
        none, false, 750⟩ := by
    simp only [EpilepsyGuard.request_transition, EpilepsyGuard.get_safety_cap,
      EpilepsyGuard.sameTargetInFlight]
    rw [min_eq_left (by norm_num : (80 : ℝ) ≤ 100)]
    rw [if_neg (by simp), if_neg not_false, if_neg (by
      rw [abs_of_nonneg (by norm_num : (0 : ℝ) ≤ 80 - 50)]
      norm_num)]
  have hval : ((EpilepsyGuard.request_transition
      ⟨SafetyMode.Automatic, 0, 50, none, none, false, 750⟩ 80
        0).tick_transition 1).2 = some 80 := by
    rw [hreq]
    simp only [EpilepsyGuard.tick_transition]
    rw [if_neg (by simp)]
    rw [if_pos (by norm_num : (1 : ℝ) - 0 ≥ (750 : ℕ) / 1000)]
  have h := (c1_transition_write_bounds
    ⟨SafetyMode.Automatic, 0, 50, none, none, false, 750⟩ 80 0 rfl
    (by norm_num) (by norm_num) (by norm_num) (by norm_num)).1
  rcases h with heq | hbound
  · rw [heq] at hreq
    exact absurd (congrArg EpilepsyGuard.transition hreq) (by simp)
  · exact hbound 1 80 hval

/-- C4: in Automatic mode with an in-flight transition of positive
duration: at or past the duration, tick_transition returns exactly the
target, stores it as current brightness and clears the transition;
strictly before the duration it returns
initial + (target - initial) * ease(elapsed/duration) with
ease(t) = -(cos(pi*t) - 1)/2; at half the duration the returned value is
the arithmetic midpoint of initial and target, strictly between them when
they differ. -/
theorem c4_tick_transition (g : EpilepsyGuard) (tr : TransitionState) (now : ℝ)
    (hmode : g.mode = SafetyMode.Automatic)
    (htr : g.transition = some tr) (hdur : 0 < tr.duration) :
    (tr.duration ≤ now - tr.start_time →
      g.tick_transition now =
        ({ g with current_brightness := tr.target_brightness, transition := none },
         some tr.target_brightness)) ∧
    (now - tr.start_time < tr.duration →
      (g.tick_transition now).2 = some (tr.initial_brightness +
        (tr.target_brightness - tr.initial_brightness) *
          EpilepsyGuard.ease_in_out ((now - tr.start_time) / tr.duration))) ∧
    (now - tr.start_time = tr.duration / 2 →
      (g.tick_transition now).2 =
        some ((tr.initial_brightness + tr.target_brightness) / 2)) ∧
    (now - tr.start_time = tr.duration / 2 →
      tr.initial_brightness ≠ tr.target_brightness →
      ∀ v, (g.tick_transition now).2 = some v →
        min tr.initial_brightness tr.target_brightness < v ∧
        v < max tr.initial_brightness tr.target_brightness) := by
  have hmne : g.mode = SafetyMode.EmergencyStop → False := by
    rw [hmode]; intro h; exact SafetyMode.noConfusion h
  have hsnap : tr.duration ≤ now - tr.start_time →
      g.tick_transition now =
        ({ g with current_brightness := tr.target_brightness, transition := none },
         some tr.target_brightness) := by
    intro h
    simp only [EpilepsyGuard.tick_transition, htr]
    rw [if_neg hmne, if_pos h]
  have hinterp : now - tr.start_time < tr.duration →
      (g.tick_transition now).2 = some (tr.initial_brightness +
        (tr.target_brightness - tr.initial_brightness) *
          EpilepsyGuard.ease_in_out ((now - tr.start_time) / tr.duration)) := by
    intro h
    simp only [EpilepsyGuard.tick_transition, htr]
    rw [if_neg hmne, if_neg (not_le.mpr h)]
  have hmid : now - tr.start_time = tr.duration / 2 →
      (g.tick_transition now).2 =
        some ((tr.initial_brightness + tr.target_brightness) / 2) := by
    intro h
    have h2 : now - tr.start_time < tr.duration := by rw [h]; linarith
    rw [hinterp h2]
    have hdiv : (tr.duration / 2) / tr.duration = 1 / 2 := by
      field_simp
      ring
    have hpi : Real.pi * (1 / 2 : ℝ) = Real.pi / 2 := by ring
    have hease : EpilepsyGuard.ease_in_out (1 / 2) = 1 / 2 := by
      unfold EpilepsyGuard.ease_in_out
      rw [hpi, Real.cos_pi_div_two]
      norm_num
    rw [h, hdiv, hease]
    congr 1
    ring
  refine ⟨hsnap, hinterp, hmid, ?_⟩
  · intro h hne v hv
    rw [hmid h] at hv
    rw [← Option.some.inj hv]
    rcases lt_or_gt_of_ne hne with hlt | hgt
    · rw [min_eq_left hlt.le, max_eq_right hlt.le]
      constructor <;> linarith
    · rw [min_eq_right hgt.le, max_eq_left hgt.le]
      constructor <;> linarith

/-- C4 witness: a transition from 20 to 80 over 0.75 s snaps to 80 at the
duration and returns the midpoint 50 at half the duration. -/
theorem c4_tick_transition_witness :
    EpilepsyGuard.tick_transition
        ⟨SafetyMode.Automatic, 0, 20, some ⟨20, 80, 0, 3/4, 20⟩, none, false, 750⟩
        (3/4) =
      (⟨SafetyMode.Automatic, 0, 80, none, none, false, 750⟩, some 80) ∧
    (EpilepsyGuard.tick_transition
        ⟨SafetyMode.Automatic, 0, 20, some ⟨20, 80, 0, 3/4, 20⟩, none, false, 750⟩
        (3/8)).2 = some 50 := by
  constructor
  · have h := c4_tick_transition
      ⟨SafetyMode.Automatic, 0, 20, some ⟨20, 80, 0, 3/4, 20⟩, none, false, 750⟩
      ⟨20, 80, 0, 3/4, 20⟩ (3/4) rfl rfl (by norm_num)
    exact h.1 (by norm_num)
  · have h := c4_tick_transition
      ⟨SafetyMode.Automatic, 0, 20, some ⟨20, 80, 0, 3/4, 20⟩, none, false, 750⟩
      ⟨20, 80, 0, 3/4, 20⟩ (3/8) rfl rfl (by norm_num)
    have h4 := h.2.2.1 (by norm_num)
    norm_num at h4
    exact h4

/-- C8: the elevation-to-brightness mapping used by get_circadian_target
is monotonically non-decreasing in elevation, continuous at the segment
boundaries -12, -6 and 6 (it is 2-Lipschitz, so there is no jump
discontinuity), with values in [50,100] above 6 degrees, [30,50] on
(-6,6], [20,30] on (-12,-6] and flat 20 at or below -12 degrees. -/
theorem c8_elevation_mapping :
    (∀ e1 e2 : ℝ, e1 ≤ e2 →
      elevationToBrightness e1 ≤ elevationToBrightness e2) ∧
    ContinuousAt elevationToBrightness 6 ∧
    ContinuousAt elevationToBrightness (-6) ∧
    ContinuousAt elevationToBrightness (-12) ∧
    (∀ e : ℝ, 6 < e →
      50 ≤ elevationToBrightness e ∧ elevationToBrightness e ≤ 100) ∧
    (∀ e : ℝ, -6 < e → e ≤ 6 →
      30 ≤ elevationToBrightness e ∧ elevationToBrightness e ≤ 50) ∧
    (∀ e : ℝ, -12 < e → e ≤ -6 →
      20 ≤ elevationToBrightness e ∧ elevationToBrightness e ≤ 30) ∧
    (∀ e : ℝ, e ≤ -12 → elevationToBrightness e = 20) := by
  refine ⟨fun e1 e2 h => (etb_mono_lip e1 e2 h).1,
    etb_lipschitz.continuous.continuousAt,
    etb_lipschitz.continuous.continuousAt,
    etb_lipschitz.continuous.continuousAt, ?_, ?_, ?_, fun e h => etb_night e h⟩
  · intro e h
    rw [etb_hi e h]
    have h1 : 0 ≤ min ((e - 6) / 40) 1 :=
      le_min (div_nonneg (by linarith) (by norm_num)) (by norm_num)
    have h2 : min ((e - 6) / 40) 1 ≤ 1 := min_le_right _ _
    constructor <;> linarith
  · intro e h1 h2
    rw [etb_mid e h1 h2]
    have h3 : 0 ≤ (6 - e) / 12 := div_nonneg (by linarith) (by norm_num)
    have h4 : (6 - e) / 12 ≤ 1 := by
      rw [div_le_one (by norm_num : (0:ℝ) < 12)]; linarith
    constructor <;> linarith
  · intro e h1 h2
    rw [etb_low e h1 h2]
    have h3 : 0 ≤ (-6 - e) / 6 := div_nonneg (by linarith) (by norm_num)
    have h4 : (-6 - e) / 6 ≤ 1 := by
      rw [div_le_one (by norm_num : (0:ℝ) < 6)]; linarith
    constructor <;> linarith

/-- C8 witness: the theorem applied at elevations 0, 3, 10 and -20. -/
theorem c8_elevation_mapping_witness :
    elevationToBrightness 0 ≤ elevationToBrightness 3 ∧
    50 ≤ elevationToBrightness 10 ∧
    30 ≤ elevationToBrightness 0 ∧
    elevationToBrightness (-20) = 20 :=
  ⟨c8_elevation_mapping.1 0 3 (by norm_num),
   (c8_elevation_mapping.2.2.2.2.1 10 (by norm_num)).1,
   (c8_elevation_mapping.2.2.2.2.2.1 0 (by norm_num) (by norm_num)).1,
   c8_elevation_mapping.2.2.2.2.2.2.2 (-20) (by norm_num)⟩

end Epilyzer
